import Mathlib

/-!
Shallow embedding of the ingestion/aggregation core of `src/streamlit.py`
(a ChatGPT-history dashboard).  Python values parsed from the JSON archive
are modelled by `JVal`; Python strings are modelled as lists of code points
(`PyStr`), numbers as rationals, and the pandas timestamp column by the
explicit `TimeVal` type (a formatted string, a parsed datetime, or NaT).
All definitions are transcribed from the source file; theorems about the
frozen claims follow the definitions.
-/

/-- A Python string, modelled as its list of code points. -/
abbrev PyStr := List Nat

/-- A Python value as produced by `json.load`: `None`, a number (ints and
floats modelled exactly as rationals, assumed in `datetime` range), a
string, a list, or a dict (field names kept as Lean strings, since the
program never manipulates key text character by character). -/
inductive JVal where
  | null
  | num (q : ℚ)
  | str (s : PyStr)
  | arr (elems : List JVal)
  | obj (fields : List (String × JVal))

namespace JVal

/-- Python truthiness (`if x:`): `None`, `0`, `""`, `[]`, `{}` are falsy. -/
def truthy : JVal → Bool
  | null => false
  | num q => decide (q ≠ 0)
  | str s => !s.isEmpty
  | arr es => !es.isEmpty
  | obj fs => !fs.isEmpty

end JVal

mutual

/-- Structural equality test on `JVal` (Python `==` on json-loaded data). -/
def jvalBeq : JVal → JVal → Bool
  | JVal.null, JVal.null => true
  | JVal.num a, JVal.num b => a == b
  | JVal.str a, JVal.str b => a == b
  | JVal.arr l1, JVal.arr l2 => jvalListBeq l1 l2
  | JVal.obj f1, JVal.obj f2 => jvalFieldsBeq f1 f2
  | _, _ => false

/-- Elementwise `jvalBeq` on lists. -/
def jvalListBeq : List JVal → List JVal → Bool
  | [], [] => true
  | a :: t1, b :: t2 => jvalBeq a b && jvalListBeq t1 t2
  | _, _ => false

/-- Elementwise `jvalBeq` on key-value field lists. -/
def jvalFieldsBeq : List (String × JVal) → List (String × JVal) → Bool
  | [], [] => true
  | (k1, v1) :: t1, (k2, v2) :: t2 =>
    k1 == k2 && (jvalBeq v1 v2 && jvalFieldsBeq t1 t2)
  | _, _ => false

end

theorem jvalBeq_iff_aux :
    ∀ n : Nat,
      (∀ a b : JVal, sizeOf a ≤ n → ((jvalBeq a b = true) ↔ a = b)) ∧
      (∀ l1 l2 : List JVal, sizeOf l1 ≤ n → ((jvalListBeq l1 l2 = true) ↔ l1 = l2)) ∧
      (∀ f1 f2 : List (String × JVal), sizeOf f1 ≤ n →
        ((jvalFieldsBeq f1 f2 = true) ↔ f1 = f2)) := by
  intro n
  induction n using Nat.strong_induction_on with
  | _ n ih =>
    refine ⟨?_, ?_, ?_⟩
    · intro a b h
      cases a <;> cases b <;> simp [jvalBeq]
      · rename_i l1 l2
        have hs : sizeOf l1 < n := by
          have := JVal.arr.sizeOf_spec l1; omega
        exact (ih (sizeOf l1) hs).2.1 l1 l2 le_rfl
      · rename_i f1 f2
        have hs : sizeOf f1 < n := by
          have := JVal.obj.sizeOf_spec f1; omega
        exact (ih (sizeOf f1) hs).2.2 f1 f2 le_rfl
    · intro l1 l2 h
      cases l1 <;> cases l2 <;> simp [jvalListBeq]
      case cons.cons a t1 b t2 =>
        have hsa : sizeOf a < n := by
          have := List.cons.sizeOf_spec a t1; omega
        have hst : sizeOf t1 < n := by
          have := List.cons.sizeOf_spec a t1; omega
        rw [(ih (sizeOf a) hsa).1 a b le_rfl,
          (ih (sizeOf t1) hst).2.1 t1 t2 le_rfl]
    · intro f1 f2 h
      cases f1 <;> cases f2 <;> simp [jvalFieldsBeq]
      case cons.cons p1 t1 p2 t2 =>
        obtain ⟨k1, v1⟩ := p1
        obtain ⟨k2, v2⟩ := p2
        have hsv : sizeOf v1 < n := by
          have h1 := List.cons.sizeOf_spec (k1, v1) t1
          have h2 := Prod.mk.sizeOf_spec k1 v1
          omega
        have hst : sizeOf t1 < n := by
          have h1 := List.cons.sizeOf_spec (k1, v1) t1
          omega
        simp [jvalFieldsBeq, (ih (sizeOf v1) hsv).1 v1 v2 le_rfl,
          (ih (sizeOf t1) hst).2.2 t1 t2 le_rfl, and_assoc]

theorem jvalBeq_iff (a b : JVal) : (jvalBeq a b = true) ↔ a = b :=
  (jvalBeq_iff_aux (sizeOf a)).1 a b le_rfl

instance : DecidableEq JVal := fun a b => decidable_of_iff _ (jvalBeq_iff a b)

/-- `d.get(k)`: first value bound to `k`, or `None` when the key is absent
(json dicts have unique keys, so first-match equals the dict lookup). -/
def dget (fields : List (String × JVal)) (k : String) : JVal :=
  match fields with
  | [] => JVal.null
  | (k0, v) :: rest => if k0 = k then v else dget rest k

/-- `d.get(k, default)`: as `dget` but returning `default` when absent. -/
def dgetD (fields : List (String × JVal)) (k : String) (default : JVal) : JVal :=
  match fields with
  | [] => default
  | (k0, v) :: rest => if k0 = k then v else dgetD rest k default

/-- Keep the first occurrence of each element, in order of first sight. -/
def firstSeen {α : Type} [DecidableEq α] (l : List α) : List α :=
  l.foldl (fun acc a => if a ∈ acc then acc else acc ++ [a]) []

/-- Python `len(v)`: length of strings and lists, key count of dicts;
`len` of `None` or a number raises `TypeError`. -/
def pyLen : JVal → Except String Nat
  | JVal.str s => Except.ok s.length
  | JVal.arr es => Except.ok es.length
  | JVal.obj fs => Except.ok (firstSeen (fs.map Prod.fst)).length
  | JVal.null => Except.error "TypeError: object of type NoneType has no len"
  | JVal.num _ => Except.error "TypeError: object of type number has no len"

/-- A cell of the `create_time` column: `tnull` is `None`/`NaT`; `tstr e`
is the string `datetime.fromtimestamp(e').strftime('%Y-%m-%d %H:%M:%S')`
for any epoch `e'` with `⌊e'⌋ = e` (the format drops fractional seconds,
so the string determines exactly the whole-second epoch `e`); `tdt e` is
the pandas `Timestamp` denoting the same instant after `pd.to_datetime`. -/
inductive TimeVal where
  | tnull
  | tstr (epoch : ℤ)
  | tdt (epoch : ℤ)
  deriving DecidableEq

/-- One row of the normalized table built by `process_json_to_dataframe`. -/
structure Row where
  conversation_id : JVal
  title : JVal
  create_time : TimeVal
  default_model_slug : JVal
  voice : JVal
  message_count : Nat
  deriving DecidableEq

/-- `datetime.fromtimestamp(v).strftime('%Y-%m-%d %H:%M:%S')` for a value
that passed the `if create_time:` truthiness gate: numbers (in range)
format to the whole-second string of their floor; any other truthy value
raises `TypeError` inside `fromtimestamp`, aborting the batch. -/
def toReadable (v : JVal) : Except String TimeVal :=
  if v.truthy then
    match v with
    | JVal.num q => Except.ok (TimeVal.tstr ⌊q⌋)
    | _ => Except.error "TypeError: fromtimestamp requires a real number"
  else
    Except.ok TimeVal.tnull

/-- The loop body of `process_json_to_dataframe`: build one record from one
archive object.  Iterating a non-dict element raises at `obj.get`. -/
def normRecord : JVal → Except String Row
  | JVal.obj kvs =>
    match toReadable (dget kvs "create_time"),
          pyLen (dgetD kvs "mapping" (JVal.obj [])) with
    | Except.ok t, Except.ok n =>
      Except.ok (Row.mk (dget kvs "conversation_id") (dget kvs "title") t
        (dget kvs "default_model_slug") (dget kvs "voice") n)
    | Except.error e, _ => Except.error e
    | _, Except.error e => Except.error e
  | _ => Except.error "AttributeError: object has no attribute get"

/-- Run an `Except`-valued function down a list, stopping at the first
error (the Python `for` loop with `records.append`). -/
def mapE {α β : Type} (f : α → Except String β) : List α → Except String (List β)
  | [] => Except.ok []
  | a :: l =>
    match f a, mapE f l with
    | Except.ok b, Except.ok bs => Except.ok (b :: bs)
    | Except.error e, _ => Except.error e
    | _, Except.error e => Except.error e

/-- `process_json_to_dataframe`: one output row per archive object, in
order, unless some object raises mid-loop. -/
def process_json_to_dataframe (jsonData : List JVal) : Except String (List Row) :=
  mapE normRecord jsonData

/-!
## Calendar arithmetic

`datetime.fromtimestamp` / pandas `.dt` accessors need the civil date of
an epoch.  `civilFromDays` is the standard days-to-civil-date algorithm
(proleptic Gregorian); the embedding fixes the timezone to UTC.
-/

/-- Civil date `(year, month, day)` of a day count from 1970-01-01. -/
def civilFromDays (z0 : ℤ) : ℤ × ℕ × ℕ :=
  let z : ℤ := z0 + 719468
  let era : ℤ := z.fdiv 146097
  let doe : ℕ := (z - era * 146097).toNat
  let yoe : ℕ := (doe - doe / 1460 + doe / 36524 - doe / 146096) / 365
  let doy : ℕ := doe - (365 * yoe + yoe / 4 - yoe / 100)
  let mp : ℕ := (5 * doy + 2) / 153
  let d : ℕ := doy - (153 * mp + 2) / 5 + 1
  let m : ℕ := if mp < 10 then mp + 3 else mp - 9
  ((yoe : ℤ) + era * 400 + (if m ≤ 2 then 1 else 0), m, d)

/-- Civil date of a whole-second epoch. -/
def dateOfEpoch (e : ℤ) : ℤ × ℕ × ℕ :=
  civilFromDays (e.fdiv 86400)

/-- `.dt.year` of a `create_time` cell: the calendar year for a parsed
timestamp, `none` (NaN) for `NaT`; a string cell has no `.dt` accessor
(the program only reads `.dt` after `pd.to_datetime`). -/
def dtYear : TimeVal → Option ℤ
  | TimeVal.tdt e => some (dateOfEpoch e).1
  | _ => none

/-- `.dt.strftime('%B')`-style month (1-12) of a cell, junk 0 off-domain. -/
def dtMonthD : TimeVal → ℕ
  | TimeVal.tdt e => (dateOfEpoch e).2.1
  | _ => 0

/-- `.dt.year` as a plain integer, junk 0 off-domain. -/
def dtYearD : TimeVal → ℤ
  | TimeVal.tdt e => (dateOfEpoch e).1
  | _ => 0

/-- `.dt.date` of a cell, junk origin date off-domain. -/
def dtDateD : TimeVal → ℤ × ℕ × ℕ
  | TimeVal.tdt e => dateOfEpoch e
  | _ => (1970, 1, 1)

/-- English month name, as produced by `strftime('%B')`. -/
def monthName : ℕ → String
  | 1 => "January"
  | 2 => "February"
  | 3 => "March"
  | 4 => "April"
  | 5 => "May"
  | 6 => "June"
  | 7 => "July"
  | 8 => "August"
  | 9 => "September"
  | 10 => "October"
  | 11 => "November"
  | 12 => "December"
  | _ => ""

/-- One cell of `pd.to_datetime(col, errors='coerce')`: `None`/`NaT` stays
`NaT`, the well-formed strings written by normalization parse back to the
timestamp they denote, and an already-parsed timestamp is unchanged. -/
def pdToDatetime : TimeVal → TimeVal
  | TimeVal.tnull => TimeVal.tnull
  | TimeVal.tstr e => TimeVal.tdt e
  | TimeVal.tdt e => TimeVal.tdt e

/-- Replace a row's `create_time` (column assignment writes in place). -/
def setCreate (r : Row) (t : TimeVal) : Row :=
  Row.mk r.conversation_id r.title t r.default_model_slug r.voice r.message_count

/-- `df['create_time'] = pd.to_datetime(df['create_time'], errors='coerce')`:
the whole-column conversion at lines 41 and 137 of the source. -/
def toDatetimeCol (df : List Row) : List Row :=
  df.map (fun r => setCreate r (pdToDatetime r.create_time))

/-!
## Counting, grouping and sorting utilities

`value_counts` and `groupby(...).size()` are modelled as: enumerate keys
in first-seen order with their multiplicities, then sort — descending by
count (stable, so ties keep first-seen order) for `value_counts`,
ascending by key for `groupby(sort=True)`.
-/

/-- Keys of `l` in first-seen order, each with its multiplicity in `l`. -/
def groupPairs {α : Type} [DecidableEq α] (l : List α) : List (α × ℕ) :=
  (firstSeen l).map (fun k => (k, l.count k))

/-- Insert `x` after every element `y` with `keep y x = true`
(stable insertion step). -/
def insSorted {α : Type} (keep : α → α → Bool) (x : α) : List α → List α
  | [] => [x]
  | y :: ys => if keep y x then y :: insSorted keep x ys else x :: y :: ys

/-- Stable insertion sort: later elements never overtake earlier ties. -/
def sortKeep {α : Type} (keep : α → α → Bool) (l : List α) : List α :=
  l.foldl (fun acc x => insSorted keep x acc) []

/-- `value_counts()` (without nulls): tally in first-seen order, then sort
by count descending, ties in first-seen order. -/
def countsDesc {α : Type} [DecidableEq α] (l : List α) : List (α × ℕ) :=
  sortKeep (fun y x => y.2 ≥ x.2) (groupPairs l)

/-- `col.nunique()`: distinct values, excluding nulls. -/
def countUnique (l : List JVal) : ℕ :=
  (firstSeen (l.filter (fun v => v ≠ JVal.null))).length

/-!
## KPI block (source lines 140-165)
-/

/-- `df[df['create_time'].dt.year == y]`: the rows of year `y` (rows with
`NaT` compare false and are excluded). -/
def yearRows (df : List Row) (y : ℤ) : List Row :=
  df.filter (fun r => dtYear r.create_time = some y)

/-- `current_year_data['conversation_id'].nunique()`. -/
def total_chats (df : List Row) (currentYear : ℤ) : ℕ :=
  countUnique ((yearRows df currentYear).map Row.conversation_id)

/-- Arithmetic mean of a list of naturals (the program only reads the mean
of a nonempty subset: the current year is guarded by `st.stop`, the
previous year by an explicit emptiness test). -/
def meanQ (l : List ℕ) : ℚ :=
  if l.length = 0 then 0 else ((l.map fun n => (n : ℚ)).sum) / l.length

/-- `current_year_data['message_count'].mean()`. -/
def avg_messages (df : List Row) (currentYear : ℤ) : ℚ :=
  meanQ ((yearRows df currentYear).map Row.message_count)

/-- `previous_year_data['message_count'].mean() if not empty else 0`. -/
def avg_messages_prev (df : List Row) (currentYear : ℤ) : ℚ :=
  if yearRows df (currentYear - 1) = [] then 0
  else meanQ ((yearRows df (currentYear - 1)).map Row.message_count)

/-- `current_year_data['voice'].notnull().sum()`. -/
def total_audio_messages (df : List Row) (currentYear : ℤ) : ℕ :=
  ((yearRows df currentYear).filter (fun r => r.voice ≠ JVal.null)).length

/-- The repeated pattern
`((current - previous) / previous * 100) if previous else 0`
of lines 163-165: a number passes the `if` gate iff it is nonzero. -/
def percentage_change (current previous : ℚ) : ℚ :=
  if JVal.truthy (JVal.num previous) then (current - previous) / previous * 100
  else 0

/-- Line 163. -/
def total_chats_change (df : List Row) (currentYear : ℤ) : ℚ :=
  percentage_change (total_chats df currentYear) (total_chats df (currentYear - 1))

/-- Line 164. -/
def avg_messages_change (df : List Row) (currentYear : ℤ) : ℚ :=
  percentage_change (avg_messages df currentYear) (avg_messages_prev df currentYear)

/-- Line 165. -/
def total_audio_messages_change (df : List Row) (currentYear : ℤ) : ℚ :=
  percentage_change (total_audio_messages df currentYear)
    (total_audio_messages df (currentYear - 1))

/-!
## Monthly counts (`plot_conversation_counts_by_month`, lines 39-55)
-/

/-- Lexicographic order on `(month, year)` string pairs, for
`groupby(['month', 'year'], sort=True)`. -/
def pairLeB (y x : String × String) : Bool :=
  decide (y.1 < x.1) ||
    (decide (y.1 = x.1) && (decide (y.2 < x.2) || decide (y.2 = x.2)))

/-- Lines 41-52: re-convert the column, keep rows of the current and the
previous calendar year, and key each row by (`'%B'` month name, year as a
string). -/
def monthKeys (df : List Row) (nowYear : ℤ) : List (String × String) :=
  let df1 := toDatetimeCol df
  let fil := df1.filter (fun r =>
    dtYear r.create_time = some nowYear ∨ dtYear r.create_time = some (nowYear - 1))
  fil.map (fun r => (monthName (dtMonthD r.create_time), toString (dtYearD r.create_time)))

/-- Line 55: `df_filtered.groupby(['month', 'year']).size()` — the number
of ROWS per (month, year) bucket. -/
def monthly_counts (df : List Row) (nowYear : ℤ) : List ((String × String) × ℕ) :=
  sortKeep (fun y x => pairLeB y.1 x.1) (groupPairs (monthKeys df nowYear))

/-- The caller's table after `plot_conversation_counts_by_month(df)`
returns: line 41 assigned the parsed column in place. -/
def monthly_table_after (df : List Row) : List Row :=
  toDatetimeCol df

/-!
## Daily counts (`plot_activity_heatmap`, lines 81-87)
-/

/-- Lexicographic order on `(year, month, day)` dates. -/
def dateLeB (a b : ℤ × ℕ × ℕ) : Bool :=
  decide (a.1 < b.1) ||
    (decide (a.1 = b.1) &&
      (decide (a.2.1 < b.2.1) ||
        (decide (a.2.1 = b.2.1) && decide (a.2.2 ≤ b.2.2))))

/-- Lines 83-87: filter to the given year, group by calendar date, count
rows per date (`groupby` sorts the date keys ascending). -/
def daily_counts (df : List Row) (year : ℤ) : List ((ℤ × ℕ × ℕ) × ℕ) :=
  sortKeep (fun yv xv => dateLeB yv.1 xv.1)
    (groupPairs ((yearRows df year).map (fun r => dtDateD r.create_time)))

/-!
## Model distribution (lines 212-217)
-/

/-- Line 212: `current_year_data['default_model_slug'].value_counts()` —
nulls are DROPPED (`value_counts` defaults to `dropna=True`), the rest is
tallied and sorted descending by count. -/
def model_counts (df : List Row) (currentYear : ℤ) : List (JVal × ℕ) :=
  countsDesc
    (((yearRows df currentYear).map Row.default_model_slug).filter
      (fun v => v ≠ JVal.null))

/-- Round half to even (numpy/pandas `.round()` at integer precision). -/
def rhe (x : ℚ) : ℤ :=
  if Int.fract x = 1 / 2 then (if Even ⌊x⌋ then ⌊x⌋ else ⌊x⌋ + 1) else round x

/-- `.round(1)`: one decimal place, half to even. -/
def round1 (x : ℚ) : ℚ :=
  (rhe (10 * x) : ℚ) / 10

/-- Lines 216-217: `total = counts.sum()`;
`percentage = (count / total * 100).round(1)`. -/
def model_counts_pct (df : List Row) (currentYear : ℤ) : List (JVal × ℕ × ℚ) :=
  let mc := model_counts df currentYear
  let total : ℚ := ((mc.map Prod.snd).sum : ℕ)
  mc.map (fun p => (p.1, p.2, round1 ((p.2 : ℚ) / total * 100)))

/-!
## Word frequencies (`get_word_frequencies`, lines 243-248)
-/

/-- `str.lower()` on one code point (ASCII range of the titles). -/
def lowerCh (n : ℕ) : ℕ :=
  if 65 ≤ n ∧ n ≤ 90 then n + 32 else n

/-- `str.lower()`. -/
def pyLower (s : PyStr) : PyStr :=
  s.map lowerCh

/-- The whitespace code points `str.split()` splits on. -/
def isSp (n : ℕ) : Bool :=
  n = 32 || n = 9 || n = 10 || n = 13 || n = 11 || n = 12

/-- `' '.join(ts)`. -/
def joinSp : List PyStr → PyStr
  | [] => []
  | [t] => t
  | t :: ts => t ++ 32 :: joinSp ts

/-- Scan for `s.split()`: `acc` holds the pending word, reversed. -/
def splitWsAux : PyStr → PyStr → List PyStr
  | [], acc => if acc.isEmpty then [] else [acc.reverse]
  | c :: cs, acc =>
    if isSp c then
      if acc.isEmpty then splitWsAux cs [] else acc.reverse :: splitWsAux cs []
    else splitWsAux cs (c :: acc)

/-- `s.split()`: maximal runs of non-whitespace, separators discarded. -/
def splitWs (s : PyStr) : List PyStr :=
  splitWsAux s []

/-- Lines 243-248: drop null titles, join with spaces, lowercase, split on
whitespace, keep words of length at least `minLength`, tally descending.
(`astype(str)` is the identity on the string titles in the column's
domain.) -/
def get_word_frequencies (titles : List (Option PyStr)) (minLength : ℕ) :
    List (PyStr × ℕ) :=
  let words := splitWs (pyLower (joinSp (titles.filterMap id)))
  countsDesc (words.filter (fun w => minLength ≤ w.length))

/-- The word-frequency summary exactly as the spec words it: lowercase
each title, whitespace-tokenize it, drop tokens shorter than `min_length`,
count occurrences, sort descending by count with ties in first-seen
order.  (Spec-side definition, for the refinement claim C9.) -/
def word_frequencies_spec (titles : List (Option PyStr)) (minLength : ℕ) :
    List (PyStr × ℕ) :=
  countsDesc
    (((titles.filterMap id).map
      (fun t => (splitWs (pyLower t)).filter (fun w => minLength ≤ w.length))).flatten)

/-!
## Infrastructure lemmas
-/

instance {ε α : Type} [DecidableEq ε] [DecidableEq α] : DecidableEq (Except ε α) :=
  fun a b =>
    match a, b with
    | Except.ok x, Except.ok y => decidable_of_iff (x = y) (by simp)
    | Except.error e, Except.error f => decidable_of_iff (e = f) (by simp)
    | Except.ok _, Except.error _ => isFalse (by simp)
    | Except.error _, Except.ok _ => isFalse (by simp)

theorem insSorted_perm {α : Type} (keep : α → α → Bool) (x : α) (l : List α) :
    List.Perm (insSorted keep x l) (x :: l) := by
  induction l with
  | nil => simp [insSorted]
  | cons y ys ih =>
    by_cases h : keep y x = true
    · simp only [insSorted, if_pos h]
      exact (ih.cons y).trans (List.Perm.swap x y ys)
    · simp [insSorted, h]

theorem sortKeep_perm_aux {α : Type} (keep : α → α → Bool) :
    ∀ (l acc : List α),
      List.Perm (l.foldl (fun acc x => insSorted keep x acc) acc) (acc ++ l) := by
  intro l
  induction l with
  | nil => intro acc; simp
  | cons x t ih =>
    intro acc
    simp only [List.foldl_cons]
    refine (ih (insSorted keep x acc)).trans ?_
    refine ((insSorted_perm keep x acc).append_right t).trans ?_
    simp only [List.cons_append]
    exact List.perm_middle.symm

theorem sortKeep_perm {α : Type} (keep : α → α → Bool) (l : List α) :
    List.Perm (sortKeep keep l) l := by
  simpa using sortKeep_perm_aux keep l []

theorem mem_firstSeen_aux {α : Type} [DecidableEq α] :
    ∀ (l acc : List α) (x : α),
      (x ∈ l.foldl (fun acc a => if a ∈ acc then acc else acc ++ [a]) acc ↔
        x ∈ acc ∨ x ∈ l) := by
  intro l
  induction l with
  | nil => simp
  | cons a t ih =>
    intro acc x
    simp only [List.foldl_cons]
    by_cases h : a ∈ acc
    · rw [if_pos h, ih]
      constructor
      · rintro (hx | hx)
        · exact Or.inl hx
        · exact Or.inr (List.mem_cons_of_mem a hx)
      · rintro (hx | hx)
        · exact Or.inl hx
        · rcases List.mem_cons.mp hx with rfl | hx
          · exact Or.inl h
          · exact Or.inr hx
    · rw [if_neg h, ih]
      simp only [List.mem_append, List.mem_singleton, List.mem_cons]
      tauto

theorem mem_firstSeen {α : Type} [DecidableEq α] (l : List α) (x : α) :
    x ∈ firstSeen l ↔ x ∈ l := by
  unfold firstSeen
  rw [mem_firstSeen_aux]
  simp

theorem mem_groupPairs {α : Type} [DecidableEq α] (l : List α) (k : α) (c : ℕ) :
    ((k, c) ∈ groupPairs l) ↔ (k ∈ l ∧ l.count k = c) := by
  unfold groupPairs
  simp only [List.mem_map, Prod.mk.injEq]
  constructor
  · rintro ⟨a, ha, rfl, rfl⟩
    exact ⟨(mem_firstSeen l a).mp ha, rfl⟩
  · rintro ⟨hk, rfl⟩
    exact ⟨k, (mem_firstSeen l k).mpr hk, rfl, rfl⟩

theorem mem_countsDesc {α : Type} [DecidableEq α] (l : List α) (k : α) (c : ℕ) :
    ((k, c) ∈ countsDesc l) ↔ (k ∈ l ∧ l.count k = c) := by
  unfold countsDesc
  rw [(sortKeep_perm _ (groupPairs l)).mem_iff, mem_groupPairs]

theorem mapE_ok {α β : Type} (f : α → Except String β) :
    ∀ (l : List α) (bs : List β), mapE f l = Except.ok bs →
      bs.length = l.length ∧
      ∀ i (hi : i < l.length) (hb : i < bs.length),
        f (l.get ⟨i, hi⟩) = Except.ok (bs.get ⟨i, hb⟩) := by
  intro l
  induction l with
  | nil =>
    intro bs h
    simp only [mapE, Except.ok.injEq] at h
    subst h
    exact ⟨rfl, fun i hi => absurd hi (by simp)⟩
  | cons a t ih =>
    intro bs h
    unfold mapE at h
    cases hfa : f a with
    | error e => rw [hfa] at h; simp at h
    | ok b =>
      rw [hfa] at h
      cases hmt : mapE f t with
      | error e2 => rw [hmt] at h; simp at h
      | ok ts =>
        rw [hmt] at h
        simp only [Except.ok.injEq] at h
        subst h
        obtain ⟨hlen, hget⟩ := ih ts hmt
        refine ⟨by simp [hlen], ?_⟩
        intro i hi hb
        cases i with
        | zero => simpa using hfa
        | succ j =>
          simp only [List.get_cons_succ]
          exact hget j (by simpa using hi) (by simpa using hb)

theorem rhe_err (x : ℚ) : |(rhe x : ℚ) - x| ≤ 1 / 2 := by
  unfold rhe
  by_cases h : Int.fract x = 1 / 2
  · rw [if_pos h]
    by_cases he : Even ⌊x⌋
    · rw [if_pos he]
      have h2 : (⌊x⌋ : ℚ) - x = -(Int.fract x) := by rw [Int.fract]; ring
      rw [h2, h, abs_le]
      norm_num
    · rw [if_neg he]
      have h2 : ((⌊x⌋ + 1 : ℤ) : ℚ) - x = 1 - Int.fract x := by
        rw [Int.fract]; push_cast; ring
      rw [h2, h, abs_le]
      norm_num
  · rw [if_neg h, abs_sub_comm]
    exact abs_sub_round x

theorem round1_err (x : ℚ) : |round1 x - x| ≤ 1 / 20 := by
  unfold round1
  have h := rhe_err (10 * x)
  have h2 : (rhe (10 * x) : ℚ) / 10 - x = ((rhe (10 * x) : ℚ) - 10 * x) / 10 := by
    ring
  rw [h2, abs_div]
  have h3 : |(10 : ℚ)| = 10 := by norm_num
  rw [h3]
  linarith

theorem abs_list_sum_le (l : List ℚ) : |l.sum| ≤ (l.map (fun x => |x|)).sum := by
  induction l with
  | nil => simp
  | cons a t ih =>
    simp only [List.sum_cons, List.map_cons]
    calc |a + t.sum| ≤ |a| + |t.sum| := abs_add _ _
    _ ≤ |a| + (t.map (fun x => |x|)).sum := by linarith

theorem list_sum_map_sub {α : Type} (f g : α → ℚ) (l : List α) :
    (l.map (fun x => f x - g x)).sum = (l.map f).sum - (l.map g).sum := by
  induction l with
  | nil => simp
  | cons a t ih => simp only [List.map_cons, List.sum_cons, ih]; ring

theorem list_sum_map_mul_right {α : Type} (f : α → ℚ) (a : ℚ) (l : List α) :
    (l.map (fun x => f x * a)).sum = (l.map f).sum * a := by
  induction l with
  | nil => simp
  | cons b t ih => simp only [List.map_cons, List.sum_cons, ih]; ring

theorem list_sum_le_card_mul {α : Type} (f : α → ℚ) (b : ℚ) :
    ∀ (l : List α), (∀ x ∈ l, f x ≤ b) → (l.map f).sum ≤ l.length * b := by
  intro l
  induction l with
  | nil => intro _; simp
  | cons a t ih =>
    intro h
    simp only [List.map_cons, List.sum_cons, List.length_cons]
    have h1 : f a ≤ b := h a (List.mem_cons_self a t)
    have h2 : (t.map f).sum ≤ t.length * b := ih fun x hx => h x (List.mem_cons_of_mem a hx)
    push_cast
    nlinarith [h1, h2]

theorem pdToDatetime_pdToDatetime (t : TimeVal) :
    pdToDatetime (pdToDatetime t) = pdToDatetime t := by
  cases t <;> rfl

theorem toDatetimeCol_toDatetimeCol (df : List Row) :
    toDatetimeCol (toDatetimeCol df) = toDatetimeCol df := by
  unfold toDatetimeCol
  rw [List.map_map]
  refine List.map_congr_left ?_
  intro r _
  simp [Function.comp, setCreate, pdToDatetime_pdToDatetime]

theorem splitWsAux_append (c : ℕ) (hc : isSp c = true) :
    ∀ (a acc b : PyStr),
      splitWsAux (a ++ c :: b) acc = splitWsAux a acc ++ splitWsAux b [] := by
  intro a
  induction a with
  | nil =>
    intro acc b
    simp only [List.nil_append, splitWsAux, hc, if_true]
    by_cases he : acc.isEmpty <;> simp [he]
  | cons d ds ih =>
    intro acc b
    simp only [List.cons_append, splitWsAux, List.append_eq]
    by_cases hd : isSp d
    · rw [if_pos hd, if_pos hd]
      by_cases he : acc.isEmpty
      · rw [if_pos he, if_pos he, ih]
      · rw [if_neg he, if_neg he, ih]
        simp
    · rw [if_neg hd, if_neg hd, ih]

theorem splitWs_append_sp (a b : PyStr) :
    splitWs (a ++ 32 :: b) = splitWs a ++ splitWs b :=
  splitWsAux_append 32 (by decide) a [] b

theorem pyLower_joinSp : ∀ ts : List PyStr, pyLower (joinSp ts) = joinSp (ts.map pyLower) := by
  intro ts
  induction ts with
  | nil => rfl
  | cons t rest ih =>
    cases rest with
    | nil => rfl
    | cons t2 r2 =>
      show pyLower (t ++ 32 :: joinSp (t2 :: r2)) =
        pyLower t ++ 32 :: joinSp ((t2 :: r2).map pyLower)
      have h32 : lowerCh 32 = 32 := by decide
      rw [← ih]
      simp [pyLower, h32]

theorem splitWs_joinSp : ∀ ts : List PyStr, splitWs (joinSp ts) = (ts.map splitWs).flatten := by
  intro ts
  induction ts with
  | nil => rfl
  | cons t rest ih =>
    cases rest with
    | nil => simp [joinSp]
    | cons t2 r2 =>
      show splitWs (t ++ 32 :: joinSp (t2 :: r2)) = _
      rw [splitWs_append_sp, ih]
      simp

theorem filter_flatten_map {α : Type} (p : α → Bool) :
    ∀ ls : List (List α), ls.flatten.filter p = (ls.map (fun l => l.filter p)).flatten := by
  intro ls
  induction ls with
  | nil => rfl
  | cons l rest ih =>
    simp only [List.flatten_cons, List.map_cons, List.filter_append, ih]

theorem normRecord_ok_parts (kvs : List (String × JVal)) (r : Row)
    (h : normRecord (JVal.obj kvs) = Except.ok r) :
    toReadable (dget kvs "create_time") = Except.ok r.create_time ∧
    pyLen (dgetD kvs "mapping" (JVal.obj [])) = Except.ok r.message_count ∧
    r.conversation_id = dget kvs "conversation_id" ∧
    r.title = dget kvs "title" ∧
    r.default_model_slug = dget kvs "default_model_slug" ∧
    r.voice = dget kvs "voice" := by
  simp only [normRecord] at h
  cases h1 : toReadable (dget kvs "create_time") with
  | error e => rw [h1] at h; simp at h
  | ok t =>
    rw [h1] at h
    cases h2 : pyLen (dgetD kvs "mapping" (JVal.obj [])) with
    | error e => rw [h2] at h; simp at h
    | ok n =>
      rw [h2] at h
      simp only [Except.ok.injEq] at h
      subst h
      exact ⟨rfl, rfl, rfl, rfl, rfl, rfl⟩

theorem normRecord_error_of_toReadable (kvs : List (String × JVal)) (e : String)
    (h : toReadable (dget kvs "create_time") = Except.error e) :
    normRecord (JVal.obj kvs) = Except.error e := by
  simp only [normRecord]
  rw [h]
  cases h2 : pyLen (dgetD kvs "mapping" (JVal.obj [])) <;> rfl

theorem normRecord_error_of_pyLen (kvs : List (String × JVal)) (e : String)
    (h : pyLen (dgetD kvs "mapping" (JVal.obj [])) = Except.error e) :
    ∃ e2, normRecord (JVal.obj kvs) = Except.error e2 := by
  simp only [normRecord]
  cases h1 : toReadable (dget kvs "create_time") with
  | error e3 => exact ⟨e3, by rw [h]⟩
  | ok t => exact ⟨e, by rw [h]⟩

theorem sum_pct (mc : List (JVal × ℕ)) (T : ℚ) (hT : T ≠ 0)
    (hsum : ((mc.map Prod.snd).sum : ℕ) = T) :
    (mc.map (fun p => ((p.2 : ℚ) / T * 100))).sum = 100 := by
  have h1 : mc.map (fun p => ((p.2 : ℚ) / T * 100)) =
      mc.map (fun p => (p.2 : ℚ) * (100 / T)) := by
    refine List.map_congr_left ?_
    intro p _
    ring
  rw [h1, list_sum_map_mul_right]
  have h2 : (mc.map (fun p => ((p.2 : ℚ)))).sum = T := by
    rw [← hsum]
    push_cast
    rw [List.map_map]
    rfl
  rw [h2]
  field_simp

/-!
## Claims
-/

/-- Claim C1: for every pair of rational values, the percentage-change
pattern of lines 163-165 returns `(current - previous) / previous * 100`
when `previous` is nonzero and exactly `0` when `previous` is zero
(saturating-zero convention), for any value of `current`. -/
theorem percentage_change_spec (current previous : ℚ) :
    (previous ≠ 0 →
      percentage_change current previous = (current - previous) / previous * 100) ∧
    (previous = 0 → percentage_change current previous = 0) := by
  constructor
  · intro h
    simp [percentage_change, JVal.truthy, h]
  · intro h
    simp [percentage_change, JVal.truthy, h]

/-- Witness for C1: the two branches at concrete inputs. -/
theorem percentage_change_spec_witness :
    percentage_change 150 100 = 50 ∧ percentage_change 7 0 = 0 := by
  constructor
  · rw [(percentage_change_spec 150 100).1 (by norm_num)]
    norm_num
  · exact (percentage_change_spec 7 0).2 rfl

/-- Counterexample for C4: `create_time = 0` is present and numeric, yet
normalization yields a null `create_time` (the `if create_time:` gate is a
truthiness test); and a truthy non-numeric `create_time` raises instead of
downgrading to null. -/
theorem create_time_zero_counterexample :
    process_json_to_dataframe [JVal.obj [("create_time", JVal.num 0)]] =
      Except.ok [Row.mk JVal.null JVal.null TimeVal.tnull JVal.null JVal.null 0] ∧
    process_json_to_dataframe [JVal.obj [("create_time", JVal.str [120])]] =
      Except.error "TypeError: fromtimestamp requires a real number" :=
  ⟨rfl, rfl⟩

/-- Claim C4 (amended): normalization converts a present truthy numeric
`create_time` to the timestamp string of its floor; it yields a null
`create_time` exactly when the field is falsy (absent, null, zero, or an
empty string/collection); and a truthy non-numeric `create_time` raises a
`TypeError`, aborting the batch, rather than downgrading to null. -/
theorem create_time_normalization (kvs : List (String × JVal)) (r : Row) :
    (normRecord (JVal.obj kvs) = Except.ok r →
      (JVal.truthy (dget kvs "create_time") = false → r.create_time = TimeVal.tnull) ∧
      (∀ q : ℚ, dget kvs "create_time" = JVal.num q → q ≠ 0 →
        r.create_time = TimeVal.tstr ⌊q⌋)) ∧
    (JVal.truthy (dget kvs "create_time") = true →
      (∀ q : ℚ, dget kvs "create_time" ≠ JVal.num q) →
      ∃ e, normRecord (JVal.obj kvs) = Except.error e) := by
  constructor
  · intro h
    have hp := (normRecord_ok_parts kvs r h).1
    constructor
    · intro htr
      unfold toReadable at hp
      rw [htr] at hp
      simp at hp
      exact hp.symm
    · intro q hq hq0
      rw [hq] at hp
      unfold toReadable at hp
      simp [JVal.truthy, hq0] at hp
      exact hp.symm
  · intro htr hnn
    have hex : ∃ e, toReadable (dget kvs "create_time") = Except.error e := by
      unfold toReadable
      rw [htr]
      cases hv : dget kvs "create_time" with
      | null => rw [hv] at htr; simp [JVal.truthy] at htr
      | num q => exact absurd hv (hnn q)
      | str s => exact ⟨_, rfl⟩
      | arr es => exact ⟨_, rfl⟩
      | obj fs => exact ⟨_, rfl⟩
    obtain ⟨e, he⟩ := hex
    exact ⟨e, normRecord_error_of_toReadable kvs e he⟩

/-- Witness for C4 (amended): a nonzero numeric epoch converts. -/
theorem create_time_normalization_witness :
    (Row.mk JVal.null JVal.null (TimeVal.tstr 5) JVal.null JVal.null 0).create_time =
      TimeVal.tstr ⌊(5 : ℚ)⌋ :=
  ((create_time_normalization [("create_time", JVal.num 5)]
    (Row.mk JVal.null JVal.null (TimeVal.tstr 5) JVal.null JVal.null 0)).1 rfl).2
    5 rfl (by norm_num)

/-- Counterexample for C5: a record whose `create_time` is a truthy
non-numeric value makes the whole batch raise: the output is an error, not
a table with one row per input record. -/
theorem normalize_raises_counterexample :
    process_json_to_dataframe [JVal.obj [("create_time", JVal.str [98, 111, 111, 109])]] =
      Except.error "TypeError: fromtimestamp requires a real number" :=
  rfl

/-- Claim C5 (amended): whenever normalization completes without raising,
it returns exactly one output row per input record, the output length
equals the input length, and the i-th row is the normalization of the
i-th record (order preserved); but a record with a truthy non-numeric
`create_time`, or a null/numeric `mapping`, raises and aborts the batch. -/
theorem normalize_length_order (input : List JVal) (rows : List Row)
    (h : process_json_to_dataframe input = Except.ok rows) :
    rows.length = input.length ∧
    ∀ i (hi : i < input.length) (hr : i < rows.length),
      normRecord (input.get ⟨i, hi⟩) = Except.ok (rows.get ⟨i, hr⟩) :=
  mapE_ok normRecord input rows h

/-- Witness for C5 (amended): one empty record normalizes to one row. -/
theorem normalize_length_order_witness :
    ([Row.mk JVal.null JVal.null TimeVal.tnull JVal.null JVal.null 0] : List Row).length =
      ([JVal.obj []] : List JVal).length :=
  (normalize_length_order [JVal.obj []]
    [Row.mk JVal.null JVal.null TimeVal.tnull JVal.null JVal.null 0] rfl).1

/-- Counterexample for C6: a `mapping` holding a one-element list (a
sequence, not a keyed collection) yields `message_count = 1`, not `0`; and
a null `mapping` raises a `TypeError` instead of counting `0`. -/
theorem message_count_list_counterexample :
    process_json_to_dataframe [JVal.obj [("mapping", JVal.arr [JVal.null])]] =
      Except.ok [Row.mk JVal.null JVal.null TimeVal.tnull JVal.null JVal.null 1] ∧
    process_json_to_dataframe [JVal.obj [("mapping", JVal.null)]] =
      Except.error "TypeError: object of type NoneType has no len" :=
  ⟨rfl, rfl⟩

/-- Claim C6 (amended): on every successfully normalized record,
`message_count` is the Python `len` of the `mapping` value — the key
count for a keyed collection, the element count for a sequence, the
character count for a string, and `0` when the field is absent (default
`{}`); a null (or numeric) `mapping` value raises a `TypeError` and
aborts the batch. -/
theorem message_count_semantics (kvs : List (String × JVal)) (r : Row) :
    (normRecord (JVal.obj kvs) = Except.ok r →
      pyLen (dgetD kvs "mapping" (JVal.obj [])) = Except.ok r.message_count) ∧
    (dgetD kvs "mapping" (JVal.obj []) = JVal.null →
      ∃ e, normRecord (JVal.obj kvs) = Except.error e) := by
  constructor
  · intro h
    exact (normRecord_ok_parts kvs r h).2.1
  · intro h
    refine normRecord_error_of_pyLen kvs
      "TypeError: object of type NoneType has no len" ?_
    rw [h]
    rfl

/-- Witness for C6 (amended): a one-key `mapping` counts one message. -/
theorem message_count_semantics_witness :
    pyLen (dgetD [("mapping", JVal.obj [("a", JVal.null)])] "mapping" (JVal.obj [])) =
      Except.ok (Row.mk JVal.null JVal.null TimeVal.tnull JVal.null JVal.null 1).message_count :=
  (message_count_semantics [("mapping", JVal.obj [("a", JVal.null)])]
    (Row.mk JVal.null JVal.null TimeVal.tnull JVal.null JVal.null 1)).1 rfl

/-- Counterexample for C2: a current-year record with a null `model_slug`
is silently dropped by `value_counts()` — the distribution has no row for
it and no "Unknown" sentinel row. -/
theorem model_distribution_counterexample :
    model_counts
      [Row.mk (JVal.str [97]) JVal.null (TimeVal.tdt 1700000000)
        (JVal.str [103, 112, 116, 45, 52]) JVal.null 1,
       Row.mk (JVal.str [98]) JVal.null (TimeVal.tdt 1700000000)
        JVal.null JVal.null 1] 2023 =
      [(JVal.str [103, 112, 116, 45, 52], 1)] := by
  decide

/-- Claim C2 (amended): the model-distribution summary tallies only the
non-null `model_slug` values of the window — every returned key is a
non-null slug counted over the window's rows, every non-null slug of the
window appears, and records with a null `model_slug` are dropped from the
distribution (no "Unknown" sentinel row is produced). -/
theorem model_distribution_drops_nulls (df : List Row) (y : ℤ) :
    (∀ k c, (k, c) ∈ model_counts df y →
      k ≠ JVal.null ∧ c = ((yearRows df y).map Row.default_model_slug).count k) ∧
    (∀ r ∈ yearRows df y, r.default_model_slug ≠ JVal.null →
      ∃ c, (r.default_model_slug, c) ∈ model_counts df y) := by
  constructor
  · intro k c h
    unfold model_counts at h
    rw [mem_countsDesc] at h
    obtain ⟨hk, hc⟩ := h
    have hkf := List.mem_filter.mp hk
    have hko : k ≠ JVal.null := by simpa using hkf.2
    refine ⟨hko, ?_⟩
    rw [← hc]
    exact @List.count_filter JVal _ _ (fun v => decide (v ≠ JVal.null)) k
      ((yearRows df y).map Row.default_model_slug) hkf.2
  · intro r hr hnull
    have hmem : r.default_model_slug ∈
        ((yearRows df y).map Row.default_model_slug).filter
          (fun v => decide (v ≠ JVal.null)) :=
      List.mem_filter.mpr ⟨List.mem_map_of_mem _ hr, by simpa using hnull⟩
    refine ⟨(((yearRows df y).map Row.default_model_slug).filter
      (fun v => decide (v ≠ JVal.null))).count r.default_model_slug, ?_⟩
    unfold model_counts
    rw [mem_countsDesc]
    exact ⟨hmem, rfl⟩

/-- Witness for C2 (amended): the single entry of a one-slug table. -/
theorem model_distribution_drops_nulls_witness :
    JVal.str [103] ≠ JVal.null ∧
    (1 : ℕ) = ((yearRows
      [Row.mk (JVal.str [97]) JVal.null (TimeVal.tdt 1700000000)
        (JVal.str [103]) JVal.null 1] 2023).map Row.default_model_slug).count
      (JVal.str [103]) :=
  (model_distribution_drops_nulls
    [Row.mk (JVal.str [97]) JVal.null (TimeVal.tdt 1700000000)
      (JVal.str [103]) JVal.null 1] 2023).1 (JVal.str [103]) 1 (by decide)

/-- Counterexample for C3: two rows of the same conversation in the same
(month, year) bucket contribute 2 to the bucket's count (`groupby.size()`
counts rows), although the table has a single distinct conversation. -/
theorem monthly_counts_counterexample :
    monthly_counts
      [Row.mk (JVal.str [97]) JVal.null (TimeVal.tdt 1700000000) JVal.null JVal.null 2,
       Row.mk (JVal.str [97]) JVal.null (TimeVal.tdt 1700000001) JVal.null JVal.null 2]
      2023 = [(("November", "2023"), 2)] ∧
    total_chats
      [Row.mk (JVal.str [97]) JVal.null (TimeVal.tdt 1700000000) JVal.null JVal.null 2,
       Row.mk (JVal.str [97]) JVal.null (TimeVal.tdt 1700000001) JVal.null JVal.null 2]
      2023 = 1 := by
  constructor
  · decide
  · decide

/-- Claim C3 (amended): every count in the monthly aggregation is the
number of raw ROWS keyed to that (month, year) bucket — `groupby.size()`
row counting, not distinct `conversation_id` counting — so a conversation
appearing in several rows of one bucket contributes once per row. -/
theorem monthly_counts_raw_rows (df : List Row) (nowYear : ℤ)
    (k : String × String) (c : ℕ) :
    (k, c) ∈ monthly_counts df nowYear →
      c = (monthKeys df nowYear).countP (fun x => decide (x = k)) := by
  intro h
  unfold monthly_counts at h
  rw [(sortKeep_perm _ _).mem_iff, mem_groupPairs] at h
  exact h.2.symm

/-- Witness for C3 (amended): the November 2023 bucket of a two-row table. -/
theorem monthly_counts_raw_rows_witness :
    (2 : ℕ) = (monthKeys
      [Row.mk (JVal.str [97]) JVal.null (TimeVal.tdt 1700000000) JVal.null JVal.null 2,
       Row.mk (JVal.str [98]) JVal.null (TimeVal.tdt 1700000001) JVal.null JVal.null 2]
      2023).countP (fun x => decide (x = ("November", "2023"))) :=
  monthly_counts_raw_rows
    [Row.mk (JVal.str [97]) JVal.null (TimeVal.tdt 1700000000) JVal.null JVal.null 2,
     Row.mk (JVal.str [98]) JVal.null (TimeVal.tdt 1700000001) JVal.null JVal.null 2]
    2023 ("November", "2023") 2 (by decide)

/-- Counterexample for C7: calling the monthly-counts plot on a freshly
normalized table (whose `create_time` cells are still the formatted
strings) overwrites the column in place: the table after the call differs
from the table before it. -/
theorem monthly_mutation_counterexample :
    monthly_table_after
      [Row.mk JVal.null JVal.null (TimeVal.tstr 1700000000) JVal.null JVal.null 0] ≠
      [Row.mk JVal.null JVal.null (TimeVal.tstr 1700000000) JVal.null JVal.null 0] := by
  decide

/-- Claim C7 (amended): the KPI block, the heatmap, the model distribution
and the word frequencies only read the table; the monthly-counts call
overwrites `create_time` with its datetime-parsed value, which is the
identity — leaving every field of every row unchanged — exactly on tables
with no string-typed `create_time` cell, in particular on any table the
app aggregates (it datetime-converts the column once, at upload, before
any aggregation call). -/
theorem aggregation_frame (df : List Row) :
    monthly_table_after (toDatetimeCol df) = toDatetimeCol df ∧
    ((∀ r ∈ df, ∀ e : ℤ, r.create_time ≠ TimeVal.tstr e) →
      monthly_table_after df = df) := by
  constructor
  · exact toDatetimeCol_toDatetimeCol df
  · intro h
    unfold monthly_table_after toDatetimeCol
    conv_rhs => rw [← List.map_id df]
    refine List.map_congr_left ?_
    intro r hr
    obtain ⟨a, b, t, d, v, m⟩ := r
    cases t with
    | tnull => rfl
    | tdt e => rfl
    | tstr e => exact absurd rfl (h _ hr e)

/-- Witness for C7 (amended): an already-converted one-row table is left
unchanged by the monthly-counts call. -/
theorem aggregation_frame_witness :
    monthly_table_after
      [Row.mk JVal.null JVal.null (TimeVal.tdt 0) JVal.null JVal.null 0] =
      [Row.mk JVal.null JVal.null (TimeVal.tdt 0) JVal.null JVal.null 0] :=
  (aggregation_frame
    [Row.mk JVal.null JVal.null (TimeVal.tdt 0) JVal.null JVal.null 0]).2
    (by intro r hr e
        rw [List.mem_singleton] at hr
        subst hr
        simp)

/-- Claim C9: for every list of titles and every minimum length,
`get_word_frequencies` — which joins the non-null titles with spaces,
lowercases, splits on whitespace, filters by length and tallies — equals
the spec's per-title pipeline (lowercase, whitespace-tokenize, drop short
tokens, count, sort descending with first-seen ties); in particular the
titles "My Trip Plan" and "trip to Spain" with minimum length 3 yield
trip:2, plan:1, spain:1. -/
theorem word_frequencies_correct :
    (∀ (titles : List (Option PyStr)) (minLength : ℕ),
      get_word_frequencies titles minLength = word_frequencies_spec titles minLength) ∧
    get_word_frequencies
      [some [77, 121, 32, 84, 114, 105, 112, 32, 80, 108, 97, 110],
       some [116, 114, 105, 112, 32, 116, 111, 32, 83, 112, 97, 105, 110]] 3 =
      [([116, 114, 105, 112], 2), ([112, 108, 97, 110], 1),
       ([115, 112, 97, 105, 110], 1)] := by
  constructor
  · intro titles m
    unfold get_word_frequencies word_frequencies_spec
    dsimp only
    rw [pyLower_joinSp, splitWs_joinSp, filter_flatten_map, List.map_map, List.map_map]
    rfl
  · decide

/-- Claim C10: the selected window of every summary is the calendar year
of the system clock (modelled as the explicit `currentYear` argument),
not a function of the archive: for a fixed archive — one conversation
created 2023-11-14 — runs whose clock year differs give different KPI,
monthly and daily summaries. -/
theorem clock_year_dependence :
    process_json_to_dataframe
      [JVal.obj [("conversation_id", JVal.str [97]),
                 ("create_time", JVal.num 1700000000)]] =
      Except.ok [Row.mk (JVal.str [97]) JVal.null (TimeVal.tstr 1700000000)
        JVal.null JVal.null 0] ∧
    total_chats (toDatetimeCol [Row.mk (JVal.str [97]) JVal.null
      (TimeVal.tstr 1700000000) JVal.null JVal.null 0]) 2023 = 1 ∧
    total_chats (toDatetimeCol [Row.mk (JVal.str [97]) JVal.null
      (TimeVal.tstr 1700000000) JVal.null JVal.null 0]) 2024 = 0 ∧
    monthly_counts (toDatetimeCol [Row.mk (JVal.str [97]) JVal.null
      (TimeVal.tstr 1700000000) JVal.null JVal.null 0]) 2023 ≠
      monthly_counts (toDatetimeCol [Row.mk (JVal.str [97]) JVal.null
        (TimeVal.tstr 1700000000) JVal.null JVal.null 0]) 2025 ∧
    daily_counts (toDatetimeCol [Row.mk (JVal.str [97]) JVal.null
      (TimeVal.tstr 1700000000) JVal.null JVal.null 0]) 2023 ≠
      daily_counts (toDatetimeCol [Row.mk (JVal.str [97]) JVal.null
        (TimeVal.tstr 1700000000) JVal.null JVal.null 0]) 2024 := by
  refine ⟨rfl, by decide, by decide, by decide, by decide⟩

/-- Counterexample for C8: six current-year rows with six distinct model
slugs give six percentages of `round1(100/6) = 16.7`, which sum to 100.2 —
not within 0.1 of 100. -/
theorem model_pct_sum_counterexample :
    ((model_counts_pct
      [Row.mk (JVal.str [97]) JVal.null (TimeVal.tdt 1700000000) (JVal.str [97]) JVal.null 1,
       Row.mk (JVal.str [97]) JVal.null (TimeVal.tdt 1700000000) (JVal.str [98]) JVal.null 1,
       Row.mk (JVal.str [97]) JVal.null (TimeVal.tdt 1700000000) (JVal.str [99]) JVal.null 1,
       Row.mk (JVal.str [97]) JVal.null (TimeVal.tdt 1700000000) (JVal.str [100]) JVal.null 1,
       Row.mk (JVal.str [97]) JVal.null (TimeVal.tdt 1700000000) (JVal.str [101]) JVal.null 1,
       Row.mk (JVal.str [97]) JVal.null (TimeVal.tdt 1700000000) (JVal.str [102]) JVal.null 1]
      2023).map (fun e => e.2.2)).sum = 501 / 5 ∧
    ¬ (|(501 : ℚ) / 5 - 100| ≤ 1 / 10) := by
  have h1 : model_counts
      [Row.mk (JVal.str [97]) JVal.null (TimeVal.tdt 1700000000) (JVal.str [97]) JVal.null 1,
       Row.mk (JVal.str [97]) JVal.null (TimeVal.tdt 1700000000) (JVal.str [98]) JVal.null 1,
       Row.mk (JVal.str [97]) JVal.null (TimeVal.tdt 1700000000) (JVal.str [99]) JVal.null 1,
       Row.mk (JVal.str [97]) JVal.null (TimeVal.tdt 1700000000) (JVal.str [100]) JVal.null 1,
       Row.mk (JVal.str [97]) JVal.null (TimeVal.tdt 1700000000) (JVal.str [101]) JVal.null 1,
       Row.mk (JVal.str [97]) JVal.null (TimeVal.tdt 1700000000) (JVal.str [102]) JVal.null 1]
      2023 =
      [(JVal.str [97], 1), (JVal.str [98], 1), (JVal.str [99], 1),
       (JVal.str [100], 1), (JVal.str [101], 1), (JVal.str [102], 1)] := by
    decide
  have h166 : ⌊(500 : ℚ) / 3⌋ = 166 := by norm_num [Int.floor_eq_iff]
  have hfr : Int.fract ((500 : ℚ) / 3) = 2 / 3 := by
    rw [Int.fract, h166]
    norm_num
  have h167 : round ((500 : ℚ) / 3) = 167 := by
    rw [round_eq]
    norm_num [Int.floor_eq_iff]
  have hr : round1 ((50 : ℚ) / 3) = 167 / 10 := by
    unfold round1 rhe
    have h10 : (10 : ℚ) * ((50 : ℚ) / 3) = 500 / 3 := by norm_num
    rw [h10, hfr, if_neg (by norm_num), h167]
    norm_num
  constructor
  · unfold model_counts_pct
    dsimp only
    rw [h1]
    simp only [List.map_cons, List.map_nil, List.sum_cons, List.sum_nil]
    norm_num
    rw [hr]
    norm_num
  · have hd : (501 : ℚ) / 5 - 100 = 1 / 5 := by norm_num
    rw [hd, abs_of_pos (by norm_num)]
    norm_num

/-- Claim C8 (amended): whenever the current-year window holds at least
one record with a non-null model slug, each model-distribution percentage
equals `count / total * 100` rounded to one decimal place (half to even),
and the sum of the percentages lies within `k / 20` of 100, where `k` is
the number of returned rows (each rounding contributes at most 0.05; the
0.1 tolerance claimed by the spec only covers `k ≤ 2`). -/
theorem model_pct_sum_bound (df : List Row) (y : ℤ)
    (h : ∃ r ∈ yearRows df y, r.default_model_slug ≠ JVal.null) :
    model_counts_pct df y = (model_counts df y).map
      (fun p => (p.1, p.2, round1 ((p.2 : ℚ) /
        ((((model_counts df y).map Prod.snd).sum : ℕ) : ℚ) * 100))) ∧
    |((model_counts_pct df y).map (fun e => e.2.2)).sum - 100| ≤
      ((model_counts_pct df y).length : ℚ) / 20 := by
  refine ⟨rfl, ?_⟩
  obtain ⟨r, hr, hs⟩ := h
  have hmem0 : (r.default_model_slug,
      (((yearRows df y).map Row.default_model_slug).filter
        (fun v => decide (v ≠ JVal.null))).count r.default_model_slug) ∈
      model_counts df y := by
    unfold model_counts
    rw [mem_countsDesc]
    exact ⟨List.mem_filter.mpr ⟨List.mem_map_of_mem _ hr, by simpa using hs⟩, rfl⟩
  have hpos : ∀ p ∈ model_counts df y, 1 ≤ p.2 := by
    intro p hp
    obtain ⟨k, c⟩ := p
    unfold model_counts at hp
    rw [mem_countsDesc] at hp
    have hcp := List.count_pos_iff.mpr hp.1
    have hc := hp.2
    simp only at hc ⊢
    omega
  have hT1 : 1 ≤ ((model_counts df y).map Prod.snd).sum := by
    have h2 := hpos _ hmem0
    have h3 := List.single_le_sum (fun (x : ℕ) _ => Nat.zero_le x) _
      (List.mem_map_of_mem Prod.snd hmem0)
    omega
  have hTQ : (((((model_counts df y).map Prod.snd).sum : ℕ)) : ℚ) ≠ 0 :=
    Nat.cast_ne_zero.mpr (by omega)
  have hsum100 : ((model_counts df y).map (fun p => ((p.2 : ℚ) /
      ((((model_counts df y).map Prod.snd).sum : ℕ) : ℚ) * 100))).sum = 100 :=
    sum_pct (model_counts df y) _ hTQ rfl
  have hmap : (model_counts_pct df y).map (fun e => e.2.2) =
      (model_counts df y).map (fun p => round1 ((p.2 : ℚ) /
        ((((model_counts df y).map Prod.snd).sum : ℕ) : ℚ) * 100)) := by
    unfold model_counts_pct
    dsimp only
    rw [List.map_map]
    rfl
  have hlen : (model_counts_pct df y).length = (model_counts df y).length := by
    unfold model_counts_pct
    dsimp only
    rw [List.length_map]
  rw [hmap, hlen]
  have hdiff : ((model_counts df y).map (fun p => round1 ((p.2 : ℚ) /
      ((((model_counts df y).map Prod.snd).sum : ℕ) : ℚ) * 100))).sum - 100 =
      ((model_counts df y).map (fun p => round1 ((p.2 : ℚ) /
        ((((model_counts df y).map Prod.snd).sum : ℕ) : ℚ) * 100) -
        ((p.2 : ℚ) / ((((model_counts df y).map Prod.snd).sum : ℕ) : ℚ) * 100))).sum := by
    rw [list_sum_map_sub, hsum100]
  rw [hdiff]
  refine le_trans (abs_list_sum_le _) ?_
  rw [List.map_map]
  have hb := list_sum_le_card_mul
    (fun p : JVal × ℕ => |round1 ((p.2 : ℚ) /
      ((((model_counts df y).map Prod.snd).sum : ℕ) : ℚ) * 100) -
      ((p.2 : ℚ) / ((((model_counts df y).map Prod.snd).sum : ℕ) : ℚ) * 100)|)
    (1 / 20) (model_counts df y) (fun p _ => round1_err _)
  refine le_trans hb ?_
  have heq : ((model_counts df y).length : ℚ) * (1 / 20) =
      ((model_counts df y).length : ℚ) / 20 := by ring
  rw [heq]

/-- Witness for C8 (amended): two equal-count slugs, percentages 50 and
50, sum exactly 100, within 2/20 of 100. -/
theorem model_pct_sum_bound_witness :
    |((model_counts_pct
      [Row.mk (JVal.str [97]) JVal.null (TimeVal.tdt 1700000000) (JVal.str [97]) JVal.null 1,
       Row.mk (JVal.str [97]) JVal.null (TimeVal.tdt 1700000000) (JVal.str [98]) JVal.null 1]
      2023).map (fun e => e.2.2)).sum - 100| ≤
      (((model_counts_pct
      [Row.mk (JVal.str [97]) JVal.null (TimeVal.tdt 1700000000) (JVal.str [97]) JVal.null 1,
       Row.mk (JVal.str [97]) JVal.null (TimeVal.tdt 1700000000) (JVal.str [98]) JVal.null 1]
      2023).length : ℕ) : ℚ) / 20 :=
  (model_pct_sum_bound
    [Row.mk (JVal.str [97]) JVal.null (TimeVal.tdt 1700000000) (JVal.str [97]) JVal.null 1,
     Row.mk (JVal.str [97]) JVal.null (TimeVal.tdt 1700000000) (JVal.str [98]) JVal.null 1]
    2023
    ⟨Row.mk (JVal.str [97]) JVal.null (TimeVal.tdt 1700000000) (JVal.str [97]) JVal.null 1,
     by decide, by decide⟩).2
